import Mathlib

/-!
Shallow embedding of the Series Points API (`src/app.py`): a record-keeping
service for users, teams, series, rounds, per-round team points and player
performances, with derived standings.  The relational store is modelled as
lists of rows; each HTTP handler becomes a pure function from the acting
user id, the (schema-validated) payload and the store to an `Except` value,
returning the response together with the updated store on success.
-/

namespace SeriesPoints

/-- Row of the `users` table (`class User`, app.py:16). -/
structure User where
  id : Nat
  name : String
  role : String
deriving DecidableEq, Repr

/-- Row of the `series` table (`class Series`, app.py:24).  Dates are day
numbers (`Int`); Python `date` subtraction yields the difference in days. -/
structure Series where
  id : Nat
  name : String
  start_date : Int
  end_date : Int
deriving DecidableEq, Repr

/-- Row of the `teams` table (`class Team`, app.py:33). -/
structure Team where
  id : Nat
  name : String
  captain_id : Nat
deriving DecidableEq, Repr

/-- Row of the `members` table (`class Member`, app.py:41). -/
structure Member where
  id : Nat
  user_id : Nat
  team_id : Nat
deriving DecidableEq, Repr

/-- Row of the `rounds` table (`class Round`, app.py:49). -/
structure Round where
  id : Nat
  series_id : Nat
  name : String
deriving DecidableEq, Repr

/-- Row of the `team_points` table (`class TeamPoint`, app.py:57). -/
structure TeamPoint where
  id : Nat
  round_id : Nat
  team_id : Nat
  points : Int
deriving DecidableEq, Repr

/-- Row of the `player_performance` table (`class PlayerPerformance`,
app.py:66).  `is_man_of_match` is an `Integer` column holding 0 or 1. -/
structure PlayerPerformance where
  id : Nat
  round_id : Nat
  player_id : Nat
  performance_points : Int
  is_man_of_match : Nat
deriving DecidableEq, Repr

/-- The whole relational store: one list of rows per table, in insertion
(storage) order. -/
structure Store where
  users : List User
  series : List Series
  teams : List Team
  members : List Member
  rounds : List Round
  teamPoints : List TeamPoint
  playerPerformances : List PlayerPerformance
deriving DecidableEq, Repr

/-- The error outcomes a handler can surface: `HTTPException` status codes
401/403/400/404, and `internalError` for an unhandled Python exception
(which FastAPI surfaces as HTTP 500). -/
inductive Err where
  | unauthorized
  | forbidden
  | invalidInput
  | notFound
  | internalError
deriving DecidableEq, Repr

/-- `db.get(User, uid)`: primary-key lookup in the users table. -/
def lookupUser (st : Store) (uid : Nat) : Option User :=
  st.users.find? (fun u => u.id == uid)

/-- `db.get(Series, sid)`. -/
def lookupSeries (st : Store) (sid : Nat) : Option Series :=
  st.series.find? (fun s => s.id == sid)

/-- `db.get(Team, tid)`. -/
def lookupTeam (st : Store) (tid : Nat) : Option Team :=
  st.teams.find? (fun t => t.id == tid)

/-- SQLite rowid assignment for an insert: one more than the largest
existing id. -/
def freshId (ids : List Nat) : Nat :=
  ids.foldr max 0 + 1

/-- `get_actor` (app.py:142): resolve the caller-supplied user id, or 401. -/
def get_actor (st : Store) (uid : Nat) : Except Err User :=
  match lookupUser st uid with
  | none => Except.error Err.unauthorized
  | some u => Except.ok u

/-- Payload of `POST /player-performance` (`PlayerPerformanceIn`). -/
structure PlayerPerformanceIn where
  round_id : Nat
  player_id : Nat
  performance_points : Int
  is_man_of_match : Bool
deriving DecidableEq, Repr

/-- Response of `GET /rounds/{round_id}/man-of-match`. -/
structure MomResp where
  round_id : Nat
  player_id : Nat
  player_name : String
deriving DecidableEq, Repr

/-- The `PlayerPerformance` rows of one round, in storage order (the
`filter(PlayerPerformance.round_id == round_id)` query). -/
def rowsForRound (st : Store) (round_id : Nat) : List PlayerPerformance :=
  st.playerPerformances.filter (fun p => p.round_id == round_id)

/-- Strict comparison underlying `ORDER BY is_man_of_match DESC,
performance_points DESC`: `perfLt p q` holds when `q` sorts strictly
before `p`. -/
def perfLt (p q : PlayerPerformance) : Bool :=
  p.is_man_of_match < q.is_man_of_match ||
    (p.is_man_of_match == q.is_man_of_match && p.performance_points < q.performance_points)

/-- The non-strict version of the sort key: `p` sorts no earlier than `q`
does, i.e. `q`'s key is at least `p`'s lexicographically. -/
def perfLe (p q : PlayerPerformance) : Prop :=
  p.is_man_of_match < q.is_man_of_match ∨
    (p.is_man_of_match = q.is_man_of_match ∧ p.performance_points ≤ q.performance_points)

instance (p q : PlayerPerformance) : Decidable (perfLe p q) := by
  unfold perfLe
  infer_instance

/-- `.order_by(is_man_of_match.desc(), performance_points.desc()).first()`:
the first row, in storage order, whose sort key is maximal. -/
def selectWinner : List PlayerPerformance → Option PlayerPerformance
  | [] => none
  | p :: ps =>
    match selectWinner ps with
    | none => some p
    | some q => if perfLt p q then some q else some p

/-- `man_of_match` (app.py:249): resolve the actor, select the top
performance row of the round, then look up the selected player.  A missing
player makes `player.id` raise `AttributeError` (HTTP 500). -/
def man_of_match (uid : Nat) (round_id : Nat) (st : Store) : Except Err MomResp :=
  match get_actor st uid with
  | Except.error e => Except.error e
  | Except.ok _ =>
    match selectWinner (rowsForRound st round_id) with
    | none => Except.error Err.notFound
    | some winner =>
      match lookupUser st winner.player_id with
      | none => Except.error Err.internalError
      | some player => Except.ok ⟨round_id, player.id, player.name⟩

/-- Payload of `POST /users` (`UserIn`, app.py:95), after schema
validation. -/
structure UserIn where
  name : String
  role : String
deriving DecidableEq, Repr

/-- Payload of `POST /series` (`SeriesIn`, app.py:100). -/
structure SeriesIn where
  name : String
  start_date : Int
  end_date : Int
deriving DecidableEq, Repr

/-- Payload of `POST /teams` (`TeamIn`, app.py:106). -/
structure TeamIn where
  name : String
  captain_id : Nat
deriving DecidableEq, Repr

/-- Payload of `POST /members` (`MemberIn`, app.py:111). -/
structure MemberIn where
  user_id : Nat
  team_id : Nat
deriving DecidableEq, Repr

/-- Payload of `POST /rounds` (`RoundIn`, app.py:116). -/
structure RoundIn where
  series_id : Nat
  name : String
deriving DecidableEq, Repr

/-- Payload of `POST /team-points` (`TeamPointsIn`, app.py:121). -/
structure TeamPointsIn where
  round_id : Nat
  team_id : Nat
  points : Int
deriving DecidableEq, Repr

/-- Response of `POST /users`. -/
structure UserResp where
  id : Nat
  name : String
  role : String
deriving DecidableEq, Repr

/-- `require_updater` (app.py:151) as a predicate: the actor must hold the
scorer role, else 403. -/
def isScorer (u : User) : Bool :=
  u.role == "scorer"

/-- Number of users with role scorer
(`db.query(func.count(User.id)).filter(User.role == "scorer")`). -/
def scorerCount (st : Store) : Nat :=
  (st.users.filter (fun u => u.role == "scorer")).length

/-- Append a user row (`db.add(user); db.commit()`). -/
def addUser (st : Store) (u : User) : Store :=
  ⟨st.users ++ [u], st.series, st.teams, st.members, st.rounds,
    st.teamPoints, st.playerPerformances⟩

/-- Append a series row. -/
def addSeries (st : Store) (s : Series) : Store :=
  ⟨st.users, st.series ++ [s], st.teams, st.members, st.rounds,
    st.teamPoints, st.playerPerformances⟩

/-- Append a team row. -/
def addTeam (st : Store) (t : Team) : Store :=
  ⟨st.users, st.series, st.teams ++ [t], st.members, st.rounds,
    st.teamPoints, st.playerPerformances⟩

/-- Append a member row. -/
def addMember (st : Store) (m : Member) : Store :=
  ⟨st.users, st.series, st.teams, st.members ++ [m], st.rounds,
    st.teamPoints, st.playerPerformances⟩

/-- Append a round row. -/
def addRound (st : Store) (r : Round) : Store :=
  ⟨st.users, st.series, st.teams, st.members, st.rounds ++ [r],
    st.teamPoints, st.playerPerformances⟩

/-- Append a team-point fact row. -/
def addTeamPoint (st : Store) (tp : TeamPoint) : Store :=
  ⟨st.users, st.series, st.teams, st.members, st.rounds,
    st.teamPoints ++ [tp], st.playerPerformances⟩

/-- Append a player-performance fact row. -/
def addPerformance (st : Store) (p : PlayerPerformance) : Store :=
  ⟨st.users, st.series, st.teams, st.members, st.rounds,
    st.teamPoints, st.playerPerformances ++ [p]⟩

/-- `create_user` (app.py:156): scorer-only; if the new role is scorer and
six or more scorers exist, reject with 400; otherwise insert. -/
def create_user (uid : Nat) (payload : UserIn) (st : Store) :
    Except Err (UserResp × Store) :=
  match get_actor st uid with
  | Except.error e => Except.error e
  | Except.ok actor =>
    if !isScorer actor then Except.error Err.forbidden
    else if payload.role == "scorer" && decide (6 ≤ scorerCount st) then
      Except.error Err.invalidInput
    else
      let nid := freshId (st.users.map (fun u => u.id))
      let u : User := ⟨nid, payload.name, payload.role⟩
      Except.ok (⟨nid, payload.name, payload.role⟩, addUser st u)

/-- `create_series` (app.py:170): scorer-only; `end_date ≥ start_date` and
a span of at most 92 days, else 400; otherwise insert. -/
def create_series (uid : Nat) (payload : SeriesIn) (st : Store) :
    Except Err ((Nat × String) × Store) :=
  match get_actor st uid with
  | Except.error e => Except.error e
  | Except.ok actor =>
    if !isScorer actor then Except.error Err.forbidden
    else if payload.end_date < payload.start_date then Except.error Err.invalidInput
    else if 92 < payload.end_date - payload.start_date then Except.error Err.invalidInput
    else
      let nid := freshId (st.series.map (fun s => s.id))
      let s : Series := ⟨nid, payload.name, payload.start_date, payload.end_date⟩
      Except.ok ((nid, payload.name), addSeries st s)

/-- `create_team` (app.py:184): scorer-only; `captain_id` must resolve to a
user with role captain, else 400; otherwise insert. -/
def create_team (uid : Nat) (payload : TeamIn) (st : Store) :
    Except Err ((Nat × String) × Store) :=
  match get_actor st uid with
  | Except.error e => Except.error e
  | Except.ok actor =>
    if !isScorer actor then Except.error Err.forbidden
    else
      match lookupUser st payload.captain_id with
      | none => Except.error Err.invalidInput
      | some captain =>
        if captain.role != "captain" then Except.error Err.invalidInput
        else
          let nid := freshId (st.teams.map (fun t => t.id))
          Except.ok ((nid, payload.name), addTeam st ⟨nid, payload.name, payload.captain_id⟩)

/-- `add_member` (app.py:197): scorer-only; the user must exist with role
captain or player (400), the team must exist (404); otherwise insert. -/
def add_member (uid : Nat) (payload : MemberIn) (st : Store) :
    Except Err (Nat × Store) :=
  match get_actor st uid with
  | Except.error e => Except.error e
  | Except.ok actor =>
    if !isScorer actor then Except.error Err.forbidden
    else
      let user? := lookupUser st payload.user_id
      let team? := lookupTeam st payload.team_id
      match user? with
      | none => Except.error Err.invalidInput
      | some user =>
        if user.role != "captain" && user.role != "player" then
          Except.error Err.invalidInput
        else
          match team? with
          | none => Except.error Err.notFound
          | some _ =>
            let nid := freshId (st.members.map (fun m => m.id))
            Except.ok (nid, addMember st ⟨nid, payload.user_id, payload.team_id⟩)

/-- `create_round` (app.py:213): scorer-only; the series must exist (404);
otherwise insert. -/
def create_round (uid : Nat) (payload : RoundIn) (st : Store) :
    Except Err ((Nat × String) × Store) :=
  match get_actor st uid with
  | Except.error e => Except.error e
  | Except.ok actor =>
    if !isScorer actor then Except.error Err.forbidden
    else
      match lookupSeries st payload.series_id with
      | none => Except.error Err.notFound
      | some _ =>
        let nid := freshId (st.rounds.map (fun r => r.id))
        Except.ok ((nid, payload.name), addRound st ⟨nid, payload.series_id, payload.name⟩)

/-- `update_team_points` (app.py:226): scorer-only; inserts the fact row
unconditionally (no existence check on round or team). -/
def update_team_points (uid : Nat) (payload : TeamPointsIn) (st : Store) :
    Except Err (String × Store) :=
  match get_actor st uid with
  | Except.error e => Except.error e
  | Except.ok actor =>
    if !isScorer actor then Except.error Err.forbidden
    else
      let nid := freshId (st.teamPoints.map (fun tp => tp.id))
      Except.ok ("ok",
        addTeamPoint st ⟨nid, payload.round_id, payload.team_id, payload.points⟩)

/-- `update_player_performance` (app.py:235): scorer-only; inserts the fact
row unconditionally, storing the boolean flag as 0/1. -/
def update_player_performance (uid : Nat) (payload : PlayerPerformanceIn) (st : Store) :
    Except Err (String × Store) :=
  match get_actor st uid with
  | Except.error e => Except.error e
  | Except.ok actor =>
    if !isScorer actor then Except.error Err.forbidden
    else
      let nid := freshId (st.playerPerformances.map (fun p => p.id))
      Except.ok ("ok",
        addPerformance st ⟨nid, payload.round_id, payload.player_id,
          payload.performance_points, if payload.is_man_of_match then 1 else 0⟩)

/-- One row of the standings team table. -/
structure TeamEntry where
  team_id : Nat
  team_name : String
  points : Int
deriving DecidableEq, Repr

/-- One row of the standings player ranking. -/
structure PlayerEntry where
  player_id : Nat
  player_name : String
  points : Int
deriving DecidableEq, Repr

/-- Response of `GET /series/{series_id}/standings`. -/
structure StandingsResp where
  series_id : Nat
  winner_team : Option TeamEntry
  man_of_the_series : Option PlayerEntry
  team_table : List TeamEntry
deriving DecidableEq, Repr

/-- Insert `e` into a list sorted by descending `key`, after every element
whose key is strictly greater and before the first whose key is at most
`key e`. -/
def insertDescBy {α : Type} (key : α → Int) (e : α) : List α → List α
  | [] => [e]
  | x :: xs => if key x ≤ key e then e :: x :: xs else x :: insertDescBy key e xs

/-- Stable sort by descending `key` (models `ORDER BY … DESC`; ties keep
storage order, which SQL leaves implementation-defined). -/
def sortDescBy {α : Type} (key : α → Int) (l : List α) : List α :=
  l.foldr (insertDescBy key) []

/-- Ids of the rounds of a series
(`db.query(Round.id).filter(Round.series_id == series_id)`, app.py:269). -/
def roundIds (st : Store) (sid : Nat) : List Nat :=
  (st.rounds.filter (fun r => r.series_id == sid)).map (fun r => r.id)

/-- Whether a team-point row belongs to team `tid` and to one of the rounds
`rids` (the join-and-filter condition of the team-totals query). -/
def tpMatches (rids : List Nat) (tid : Nat) (tp : TeamPoint) : Bool :=
  tp.team_id == tid && rids.contains tp.round_id

/-- Summed points of one team over the given rounds
(`func.sum(TeamPoint.points)` within a `group_by(Team.id)` group). -/
def teamTotal (st : Store) (rids : List Nat) (tid : Nat) : Int :=
  ((st.teamPoints.filter (tpMatches rids tid)).map (fun tp => tp.points)).sum

/-- The grouped team-totals rows before ordering: one entry per team that
joins at least one matching team-point row (inner join + `group_by`),
in storage order of the teams table. -/
def teamRowsUnsorted (st : Store) (rids : List Nat) : List TeamEntry :=
  (st.teams.filter (fun t => st.teamPoints.any (tpMatches rids t.id))).map
    (fun t => ⟨t.id, t.name, teamTotal st rids t.id⟩)

/-- `order_by(func.sum(TeamPoint.points).desc())`: the grouped rows sorted
by descending total (stable; ties keep storage order). -/
def teamTotals (st : Store) (rids : List Nat) : List TeamEntry :=
  sortDescBy (fun e => e.points) (teamRowsUnsorted st rids)

/-- Whether a performance row belongs to player `pid` and to one of the
rounds `rids` (the join-and-filter condition of the player-totals query). -/
def perfMatches (rids : List Nat) (pid : Nat) (p : PlayerPerformance) : Bool :=
  p.player_id == pid && rids.contains p.round_id

/-- Summed performance points of one player over the given rounds. -/
def playerTotal (st : Store) (rids : List Nat) (pid : Nat) : Int :=
  ((st.playerPerformances.filter (perfMatches rids pid)).map
    (fun p => p.performance_points)).sum

/-- The grouped player-totals rows before ordering: one entry per user that
joins at least one matching performance row, in storage order. -/
def playerRowsUnsorted (st : Store) (rids : List Nat) : List PlayerEntry :=
  (st.users.filter (fun u => st.playerPerformances.any (perfMatches rids u.id))).map
    (fun u => ⟨u.id, u.name, playerTotal st rids u.id⟩)

/-- The player rows sorted by descending total. -/
def playerTotals (st : Store) (rids : List Nat) : List PlayerEntry :=
  sortDescBy (fun e => e.points) (playerRowsUnsorted st rids)

/-- `series_results` (app.py:263): 404 unless the series exists, then the
team table ordered by descending summed points with the top entries as
winner team and man of the series. -/
def series_results (uid : Nat) (sid : Nat) (st : Store) : Except Err StandingsResp :=
  match get_actor st uid with
  | Except.error e => Except.error e
  | Except.ok _ =>
    match lookupSeries st sid with
    | none => Except.error Err.notFound
    | some _ =>
      let tt := teamTotals st (roundIds st sid)
      let pt := playerTotals st (roundIds st sid)
      Except.ok ⟨sid, tt.head?, pt.head?, tt⟩

/-- A team-point row is not orphaned: its team and its round both exist. -/
def tpKeep (st : Store) (tp : TeamPoint) : Bool :=
  st.teams.any (fun t => t.id == tp.team_id) &&
    st.rounds.any (fun r => r.id == tp.round_id)

/-- A performance row is not orphaned: its player and its round both
exist. -/
def perfKeep (st : Store) (p : PlayerPerformance) : Bool :=
  st.users.any (fun u => u.id == p.player_id) &&
    st.rounds.any (fun r => r.id == p.round_id)

/-- Drop every orphaned fact row: a `TeamPoint` whose team or round does
not exist, or a `PlayerPerformance` whose player or round does not exist. -/
def pruneOrphans (st : Store) : Store :=
  ⟨st.users, st.series, st.teams, st.members, st.rounds,
    st.teamPoints.filter (tpKeep st), st.playerPerformances.filter (perfKeep st)⟩

/-! ## General lemmas about the embedded operations -/

theorem selectWinner_eq_none {l : List PlayerPerformance} :
    selectWinner l = none ↔ l = [] := by
  cases l with
  | nil => simp [selectWinner]
  | cons p ps =>
    simp only [selectWinner]
    cases selectWinner ps with
    | none => simp
    | some q =>
      constructor
      · intro h
        by_cases hlt : perfLt p q <;> simp [hlt] at h
      · intro h
        exact absurd h (List.cons_ne_nil p ps)

theorem perfLe_refl (p : PlayerPerformance) : perfLe p p := by
  unfold perfLe
  omega

theorem perfLe_trans {p q r : PlayerPerformance} (h₁ : perfLe p q) (h₂ : perfLe q r) :
    perfLe p r := by
  unfold perfLe at *
  omega

theorem perfLe_of_perfLt {p q : PlayerPerformance} (h : perfLt p q = true) :
    perfLe p q := by
  simp [perfLt] at h
  unfold perfLe
  omega

theorem perfLe_of_not_perfLt {p q : PlayerPerformance} (h : perfLt p q = false) :
    perfLe q p := by
  simp [perfLt] at h
  unfold perfLe
  omega

/-- The row returned by `selectWinner` is a row of the list and its sort
key is maximal among all rows. -/
theorem selectWinner_spec :
    ∀ {l : List PlayerPerformance} {w : PlayerPerformance}, selectWinner l = some w →
      w ∈ l ∧ ∀ p ∈ l, perfLe p w := by
  intro l
  induction l with
  | nil => intro w h; simp [selectWinner] at h
  | cons p ps ih =>
    intro w h
    simp only [selectWinner] at h
    cases hq : selectWinner ps with
    | none =>
      rw [hq] at h
      have hps : ps = [] := selectWinner_eq_none.mp hq
      cases h
      subst hps
      refine ⟨List.mem_singleton.mpr rfl, ?_⟩
      intro x hx
      rw [List.mem_singleton.mp hx]
      exact perfLe_refl _
    | some q =>
      rw [hq] at h
      dsimp only at h
      have hmem := (ih hq).1
      have hmax := (ih hq).2
      by_cases hlt : perfLt p q = true
      · rw [if_pos hlt] at h
        cases h
        refine ⟨List.mem_cons_of_mem p hmem, ?_⟩
        intro x hx
        rcases List.mem_cons.mp hx with hx | hx
        · rw [hx]; exact perfLe_of_perfLt hlt
        · exact hmax x hx
      · rw [if_neg hlt] at h
        cases h
        refine ⟨List.mem_cons_self _ _, ?_⟩
        intro x hx
        rcases List.mem_cons.mp hx with hx | hx
        · rw [hx]; exact perfLe_refl _
        · have hf : perfLt p q = false := by simpa using hlt
          exact perfLe_trans (hmax x hx) (perfLe_of_not_perfLt hf)

/-- Example store for the man-of-the-match property: player A has 10
points without the flag, player B has 5 points with the flag. -/
def momExampleStore : Store :=
  ⟨[⟨1, "Scorer", "scorer"⟩, ⟨2, "A", "player"⟩, ⟨3, "B", "player"⟩],
    [], [], [], [], [],
    [⟨1, 7, 2, 10, 0⟩, ⟨2, 7, 3, 5, 1⟩]⟩

/-- C1: for every round, the man-of-the-match operation selects, among all
`PlayerPerformance` rows for that round, a row whose sort key
(`is_man_of_match` descending, then `performance_points` descending) is
maximal; in particular, for a round with rows
[(player A, points=10, mom=false), (player B, points=5, mom=true)] it
returns player B. -/
theorem man_of_match_selects_best (st : Store) (uid rid : Nat) (resp : MomResp)
    (h : man_of_match uid rid st = Except.ok resp) :
    (∃ w ∈ rowsForRound st rid,
        resp.player_id = w.player_id ∧ ∀ p ∈ rowsForRound st rid, perfLe p w) ∧
      man_of_match 1 7 momExampleStore = Except.ok ⟨7, 3, "B"⟩ := by
  refine ⟨?_, by rfl⟩
  unfold man_of_match at h
  cases hact : get_actor st uid with
  | error e => rw [hact] at h; cases h
  | ok actor =>
    rw [hact] at h
    dsimp only at h
    cases hw : selectWinner (rowsForRound st rid) with
    | none => rw [hw] at h; cases h
    | some w =>
      rw [hw] at h
      dsimp only at h
      cases hl : lookupUser st w.player_id with
      | none => rw [hl] at h; cases h
      | some player =>
        rw [hl] at h
        dsimp only at h
        cases h
        have hl₂ : st.users.find? (fun u => u.id == w.player_id) = some player := hl
        have hid : (player.id == w.player_id) = true :=
          @List.find?_some User (fun u => u.id == w.player_id) player st.users hl₂
        refine ⟨w, (selectWinner_spec hw).1, ?_, (selectWinner_spec hw).2⟩
        have hid₂ : player.id = w.player_id := by simpa using hid
        exact hid₂

/-- Witness for C1 at the example store: the operation succeeds and the
selected row (player B) is key-maximal. -/
theorem man_of_match_selects_best_witness :
    (∃ w ∈ rowsForRound momExampleStore 7,
        (MomResp.mk 7 3 "B").player_id = w.player_id ∧
          ∀ p ∈ rowsForRound momExampleStore 7, perfLe p w) ∧
      man_of_match 1 7 momExampleStore = Except.ok ⟨7, 3, "B"⟩ :=
  man_of_match_selects_best momExampleStore 1 7 ⟨7, 3, "B"⟩ rfl

/-- The store right after startup: only the seeded default scorer
(`ensure_default_scorer`, app.py:79). -/
def seedStore : Store :=
  ⟨[⟨1, "Default Scorer", "scorer"⟩], [], [], [], [], [], []⟩

/-- C8: when no `PlayerPerformance` row exists for the requested round, the
man-of-the-match operation fails with `NotFound` (404). -/
theorem man_of_match_no_rows_notFound (st : Store) (uid rid : Nat) (u : User)
    (hu : lookupUser st uid = some u) (hrows : rowsForRound st rid = []) :
    man_of_match uid rid st = Except.error Err.notFound := by
  unfold man_of_match get_actor
  rw [hu]
  dsimp only
  rw [hrows]
  rfl

/-- Witness for C8: in the freshly seeded store, round 5 has no rows and
the operation returns `NotFound`. -/
theorem man_of_match_no_rows_notFound_witness :
    lookupUser seedStore 1 = some ⟨1, "Default Scorer", "scorer"⟩ ∧
      rowsForRound seedStore 5 = [] ∧
      man_of_match 1 5 seedStore = Except.error Err.notFound :=
  ⟨rfl, rfl, man_of_match_no_rows_notFound seedStore 1 5 ⟨1, "Default Scorer", "scorer"⟩ rfl rfl⟩

/-- C3: a scorer-actor user creation with role scorer succeeds exactly when
fewer than six scorers exist, and fails with `InvalidInput` (400) when six
or more exist. -/
theorem create_user_scorer_cap (st : Store) (uid : Nat) (payload : UserIn) (actor : User)
    (hact : lookupUser st uid = some actor) (hrole : actor.role = "scorer")
    (hp : payload.role = "scorer") :
    (scorerCount st < 6 →
      ∃ resp st₂, create_user uid payload st = Except.ok (resp, st₂)) ∧
    (6 ≤ scorerCount st →
      create_user uid payload st = Except.error Err.invalidInput) := by
  have hs : isScorer actor = true := by simp [isScorer, hrole]
  constructor
  · intro hlt
    refine ⟨⟨freshId (st.users.map fun u => u.id), payload.name, payload.role⟩,
      addUser st ⟨freshId (st.users.map fun u => u.id), payload.name, payload.role⟩, ?_⟩
    unfold create_user get_actor
    rw [hact]
    dsimp only
    rw [hs]
    have hno : ¬ (6 ≤ scorerCount st) := Nat.not_le.mpr hlt
    simp [hno]
  · intro hge
    unfold create_user get_actor
    rw [hact]
    dsimp only
    rw [hs]
    simp [hp, hge]

/-- Store holding exactly five scorers. -/
def fiveScorerStore : Store :=
  ⟨[⟨1, "a", "scorer"⟩, ⟨2, "b", "scorer"⟩, ⟨3, "c", "scorer"⟩,
    ⟨4, "d", "scorer"⟩, ⟨5, "e", "scorer"⟩], [], [], [], [], [], []⟩

/-- Store holding exactly six scorers. -/
def sixScorerStore : Store :=
  ⟨[⟨1, "a", "scorer"⟩, ⟨2, "b", "scorer"⟩, ⟨3, "c", "scorer"⟩,
    ⟨4, "d", "scorer"⟩, ⟨5, "e", "scorer"⟩, ⟨6, "f", "scorer"⟩],
    [], [], [], [], [], []⟩

/-- Witness for C3: with exactly five scorers the sixth creation succeeds,
and with six scorers the seventh fails. -/
theorem create_user_scorer_cap_witness :
    (∃ resp st₂,
      create_user 1 ⟨"F", "scorer"⟩ fiveScorerStore = Except.ok (resp, st₂)) ∧
    create_user 1 ⟨"G", "scorer"⟩ sixScorerStore = Except.error Err.invalidInput :=
  ⟨(create_user_scorer_cap fiveScorerStore 1 ⟨"F", "scorer"⟩ ⟨1, "a", "scorer"⟩
      rfl rfl rfl).1 (by decide),
    (create_user_scorer_cap sixScorerStore 1 ⟨"G", "scorer"⟩ ⟨1, "a", "scorer"⟩
      rfl rfl rfl).2 (by decide)⟩

/-- C4: a scorer-actor series creation succeeds when
`start_date ≤ end_date` and the span is at most 92 days, and fails with
`InvalidInput` (400) when the dates are out of order or the span exceeds
92 days. -/
theorem create_series_span (st : Store) (uid : Nat) (payload : SeriesIn) (actor : User)
    (hact : lookupUser st uid = some actor) (hrole : actor.role = "scorer") :
    (payload.start_date ≤ payload.end_date ∧
        payload.end_date - payload.start_date ≤ 92 →
      ∃ resp st₂, create_series uid payload st = Except.ok (resp, st₂)) ∧
    (payload.end_date < payload.start_date ∨
        92 < payload.end_date - payload.start_date →
      create_series uid payload st = Except.error Err.invalidInput) := by
  have hs : isScorer actor = true := by simp [isScorer, hrole]
  constructor
  · intro hok
    refine ⟨(freshId (st.series.map fun s => s.id), payload.name),
      addSeries st ⟨freshId (st.series.map fun s => s.id), payload.name,
        payload.start_date, payload.end_date⟩, ?_⟩
    unfold create_series get_actor
    rw [hact]
    dsimp only
    rw [hs]
    have h1 : ¬ (payload.end_date < payload.start_date) := not_lt.mpr hok.1
    have h2 : ¬ (92 < payload.end_date - payload.start_date) := not_lt.mpr hok.2
    simp [h1, h2]
  · intro hbad
    unfold create_series get_actor
    rw [hact]
    dsimp only
    rw [hs]
    rcases hbad with hbad | hbad
    · simp [hbad]
    · have h1 : ¬ (payload.end_date < payload.start_date) := by
        intro hlt
        have : payload.end_date - payload.start_date < 0 := by omega
        omega
      simp [h1, hbad]

/-- Witness for C4: a span of exactly 92 days succeeds, a span of 93 days
fails. -/
theorem create_series_span_witness :
    (∃ resp st₂, create_series 1 ⟨"s", 0, 92⟩ seedStore = Except.ok (resp, st₂)) ∧
      create_series 1 ⟨"t", 0, 93⟩ seedStore = Except.error Err.invalidInput :=
  ⟨(create_series_span seedStore 1 ⟨"s", 0, 92⟩ ⟨1, "Default Scorer", "scorer"⟩
        rfl rfl).1 ⟨by decide, by decide⟩,
    (create_series_span seedStore 1 ⟨"t", 0, 93⟩ ⟨1, "Default Scorer", "scorer"⟩
        rfl rfl).2 (Or.inr (by decide))⟩

/-- C5: every mutating operation invoked by an authenticated actor whose
role is not scorer fails with `Forbidden` (403), whatever the payload; no
updated store is produced. -/
theorem mutating_requires_scorer (st : Store) (uid : Nat) (actor : User)
    (hact : lookupUser st uid = some actor) (hrole : actor.role ≠ "scorer") :
    (∀ p : UserIn, create_user uid p st = Except.error Err.forbidden) ∧
    (∀ p : SeriesIn, create_series uid p st = Except.error Err.forbidden) ∧
    (∀ p : TeamIn, create_team uid p st = Except.error Err.forbidden) ∧
    (∀ p : MemberIn, add_member uid p st = Except.error Err.forbidden) ∧
    (∀ p : RoundIn, create_round uid p st = Except.error Err.forbidden) ∧
    (∀ p : TeamPointsIn, update_team_points uid p st = Except.error Err.forbidden) ∧
    (∀ p : PlayerPerformanceIn,
      update_player_performance uid p st = Except.error Err.forbidden) := by
  have hs : isScorer actor = false := by
    simp [isScorer]
    exact hrole
  refine ⟨?_, ?_, ?_, ?_, ?_, ?_, ?_⟩ <;> intro p
  · unfold create_user get_actor; rw [hact]; dsimp only; rw [hs]; rfl
  · unfold create_series get_actor; rw [hact]; dsimp only; rw [hs]; rfl
  · unfold create_team get_actor; rw [hact]; dsimp only; rw [hs]; rfl
  · unfold add_member get_actor; rw [hact]; dsimp only; rw [hs]; rfl
  · unfold create_round get_actor; rw [hact]; dsimp only; rw [hs]; rfl
  · unfold update_team_points get_actor; rw [hact]; dsimp only; rw [hs]; rfl
  · unfold update_player_performance get_actor; rw [hact]; dsimp only; rw [hs]; rfl

/-- Witness for C5: a captain actor is rejected with 403 on every mutating
route, with payloads that would otherwise be valid. -/
theorem mutating_requires_scorer_witness :
    create_user 2 ⟨"N", "player"⟩
        ⟨[⟨1, "S", "scorer"⟩, ⟨2, "C", "captain"⟩], [], [], [], [], [], []⟩ =
      Except.error Err.forbidden ∧
    update_team_points 2 ⟨1, 1, 3⟩
        ⟨[⟨1, "S", "scorer"⟩, ⟨2, "C", "captain"⟩], [], [], [], [], [], []⟩ =
      Except.error Err.forbidden :=
  ⟨(mutating_requires_scorer
      ⟨[⟨1, "S", "scorer"⟩, ⟨2, "C", "captain"⟩], [], [], [], [], [], []⟩ 2
      ⟨2, "C", "captain"⟩ rfl (by decide)).1 ⟨"N", "player"⟩,
    ((mutating_requires_scorer
      ⟨[⟨1, "S", "scorer"⟩, ⟨2, "C", "captain"⟩], [], [], [], [], [], []⟩ 2
      ⟨2, "C", "captain"⟩ rfl (by decide)).2.2.2.2.2.1 ⟨1, 1, 3⟩)⟩

/-- C9: for a scorer actor, recording team points or a player performance
always succeeds with status ok and appends the fact row, for every store
and payload — in particular when the referenced round, team or player does
not exist; no referential-existence check is performed. -/
theorem fact_recording_unchecked (st : Store) (uid : Nat) (actor : User)
    (hact : lookupUser st uid = some actor) (hrole : actor.role = "scorer")
    (tp : TeamPointsIn) (pp : PlayerPerformanceIn) :
    update_team_points uid tp st =
      Except.ok ("ok", addTeamPoint st
        ⟨freshId (st.teamPoints.map fun r => r.id), tp.round_id, tp.team_id, tp.points⟩) ∧
    update_player_performance uid pp st =
      Except.ok ("ok", addPerformance st
        ⟨freshId (st.playerPerformances.map fun r => r.id), pp.round_id, pp.player_id,
          pp.performance_points, if pp.is_man_of_match then 1 else 0⟩) := by
  have hs : isScorer actor = true := by simp [isScorer, hrole]
  constructor
  · unfold update_team_points get_actor; rw [hact]; dsimp only; rw [hs]; rfl
  · unfold update_player_performance get_actor; rw [hact]; dsimp only; rw [hs]; rfl

/-- Witness for C9: in the seeded store (no rounds, teams or players
beyond the scorer), recording facts against nonexistent round 42, team 9
and player 8 still succeeds and appends the row. -/
theorem fact_recording_unchecked_witness :
    lookupTeam seedStore 9 = none ∧
    (seedStore.rounds.find? (fun r => r.id == 42) = none) ∧
    update_team_points 1 ⟨42, 9, 3⟩ seedStore =
      Except.ok ("ok", addTeamPoint seedStore ⟨1, 42, 9, 3⟩) ∧
    update_player_performance 1 ⟨42, 8, 4, true⟩ seedStore =
      Except.ok ("ok", addPerformance seedStore ⟨1, 42, 8, 4, 1⟩) :=
  ⟨rfl, rfl,
    (fact_recording_unchecked seedStore 1 ⟨1, "Default Scorer", "scorer"⟩ rfl rfl
      ⟨42, 9, 3⟩ ⟨42, 8, 4, true⟩).1,
    (fact_recording_unchecked seedStore 1 ⟨1, "Default Scorer", "scorer"⟩ rfl rfl
      ⟨42, 9, 3⟩ ⟨42, 8, 4, true⟩).2⟩

/-- `st₂` extends `st` by exactly one row appended to exactly one table;
each `add*` helper appends one row to its table and copies every other
table verbatim. -/
def insertsOneRow (st st₂ : Store) : Prop :=
  (∃ u, st₂ = addUser st u) ∨ (∃ s, st₂ = addSeries st s) ∨
  (∃ t, st₂ = addTeam st t) ∨ (∃ m, st₂ = addMember st m) ∨
  (∃ r, st₂ = addRound st r) ∨ (∃ tp, st₂ = addTeamPoint st tp) ∨
  (∃ p, st₂ = addPerformance st p)

/-- C6: every mutating operation either fails, producing no updated store,
or succeeds and the updated store is the old store with exactly one new
row appended to one table, every other table unchanged. -/
theorem mutating_atomic (st : Store) (uid : Nat) :
    (∀ p : UserIn, (∃ e, create_user uid p st = Except.error e) ∨
      ∃ r st₂, create_user uid p st = Except.ok (r, st₂) ∧ insertsOneRow st st₂) ∧
    (∀ p : SeriesIn, (∃ e, create_series uid p st = Except.error e) ∨
      ∃ r st₂, create_series uid p st = Except.ok (r, st₂) ∧ insertsOneRow st st₂) ∧
    (∀ p : TeamIn, (∃ e, create_team uid p st = Except.error e) ∨
      ∃ r st₂, create_team uid p st = Except.ok (r, st₂) ∧ insertsOneRow st st₂) ∧
    (∀ p : MemberIn, (∃ e, add_member uid p st = Except.error e) ∨
      ∃ r st₂, add_member uid p st = Except.ok (r, st₂) ∧ insertsOneRow st st₂) ∧
    (∀ p : RoundIn, (∃ e, create_round uid p st = Except.error e) ∨
      ∃ r st₂, create_round uid p st = Except.ok (r, st₂) ∧ insertsOneRow st st₂) ∧
    (∀ p : TeamPointsIn, (∃ e, update_team_points uid p st = Except.error e) ∨
      ∃ r st₂, update_team_points uid p st = Except.ok (r, st₂) ∧ insertsOneRow st st₂) ∧
    (∀ p : PlayerPerformanceIn,
      (∃ e, update_player_performance uid p st = Except.error e) ∨
      ∃ r st₂, update_player_performance uid p st = Except.ok (r, st₂) ∧
        insertsOneRow st st₂) := by
  refine ⟨?_, ?_, ?_, ?_, ?_, ?_, ?_⟩ <;> intro p
  · unfold create_user get_actor
    cases lookupUser st uid with
    | none => exact Or.inl ⟨_, rfl⟩
    | some actor =>
      dsimp only
      by_cases h1 : (!isScorer actor) = true
      · rw [if_pos h1]; exact Or.inl ⟨_, rfl⟩
      · rw [if_neg h1]
        by_cases h2 : (p.role == "scorer" && decide (6 ≤ scorerCount st)) = true
        · rw [if_pos h2]; exact Or.inl ⟨_, rfl⟩
        · rw [if_neg h2]; exact Or.inr ⟨_, _, rfl, Or.inl ⟨_, rfl⟩⟩
  · unfold create_series get_actor
    cases lookupUser st uid with
    | none => exact Or.inl ⟨_, rfl⟩
    | some actor =>
      dsimp only
      by_cases h1 : (!isScorer actor) = true
      · rw [if_pos h1]; exact Or.inl ⟨_, rfl⟩
      · rw [if_neg h1]
        by_cases h2 : p.end_date < p.start_date
        · rw [if_pos h2]; exact Or.inl ⟨_, rfl⟩
        · rw [if_neg h2]
          by_cases h3 : 92 < p.end_date - p.start_date
          · rw [if_pos h3]; exact Or.inl ⟨_, rfl⟩
          · rw [if_neg h3]; exact Or.inr ⟨_, _, rfl, Or.inr (Or.inl ⟨_, rfl⟩)⟩
  · unfold create_team get_actor
    cases lookupUser st uid with
    | none => exact Or.inl ⟨_, rfl⟩
    | some actor =>
      dsimp only
      by_cases h1 : (!isScorer actor) = true
      · rw [if_pos h1]; exact Or.inl ⟨_, rfl⟩
      · rw [if_neg h1]
        cases lookupUser st p.captain_id with
        | none => exact Or.inl ⟨_, rfl⟩
        | some captain =>
          dsimp only
          by_cases h2 : (captain.role != "captain") = true
          · rw [if_pos h2]; exact Or.inl ⟨_, rfl⟩
          · rw [if_neg h2]; exact Or.inr ⟨_, _, rfl, Or.inr (Or.inr (Or.inl ⟨_, rfl⟩))⟩
  · unfold add_member get_actor
    cases lookupUser st uid with
    | none => exact Or.inl ⟨_, rfl⟩
    | some actor =>
      dsimp only
      by_cases h1 : (!isScorer actor) = true
      · rw [if_pos h1]; exact Or.inl ⟨_, rfl⟩
      · rw [if_neg h1]
        cases lookupUser st p.user_id with
        | none => exact Or.inl ⟨_, rfl⟩
        | some user =>
          dsimp only
          by_cases h2 : (user.role != "captain" && user.role != "player") = true
          · rw [if_pos h2]; exact Or.inl ⟨_, rfl⟩
          · rw [if_neg h2]
            cases lookupTeam st p.team_id with
            | none => exact Or.inl ⟨_, rfl⟩
            | some team =>
              exact Or.inr ⟨_, _, rfl, Or.inr (Or.inr (Or.inr (Or.inl ⟨_, rfl⟩)))⟩
  · unfold create_round get_actor
    cases lookupUser st uid with
    | none => exact Or.inl ⟨_, rfl⟩
    | some actor =>
      dsimp only
      by_cases h1 : (!isScorer actor) = true
      · rw [if_pos h1]; exact Or.inl ⟨_, rfl⟩
      · rw [if_neg h1]
        cases lookupSeries st p.series_id with
        | none => exact Or.inl ⟨_, rfl⟩
        | some s =>
          exact Or.inr ⟨_, _, rfl, Or.inr (Or.inr (Or.inr (Or.inr (Or.inl ⟨_, rfl⟩))))⟩
  · unfold update_team_points get_actor
    cases lookupUser st uid with
    | none => exact Or.inl ⟨_, rfl⟩
    | some actor =>
      dsimp only
      by_cases h1 : (!isScorer actor) = true
      · rw [if_pos h1]; exact Or.inl ⟨_, rfl⟩
      · rw [if_neg h1]
        exact Or.inr ⟨_, _, rfl,
          Or.inr (Or.inr (Or.inr (Or.inr (Or.inr (Or.inl ⟨_, rfl⟩)))))⟩
  · unfold update_player_performance get_actor
    cases lookupUser st uid with
    | none => exact Or.inl ⟨_, rfl⟩
    | some actor =>
      dsimp only
      by_cases h1 : (!isScorer actor) = true
      · rw [if_pos h1]; exact Or.inl ⟨_, rfl⟩
      · rw [if_neg h1]
        exact Or.inr ⟨_, _, rfl,
          Or.inr (Or.inr (Or.inr (Or.inr (Or.inr (Or.inr ⟨_, rfl⟩)))))⟩

theorem mem_insertDescBy {α : Type} (key : α → Int) (e a : α) (l : List α) :
    a ∈ insertDescBy key e l ↔ a = e ∨ a ∈ l := by
  induction l with
  | nil => simp [insertDescBy]
  | cons x xs ih =>
    simp only [insertDescBy]
    by_cases h : key x ≤ key e
    · rw [if_pos h]
      simp [List.mem_cons]
    · rw [if_neg h]
      simp only [List.mem_cons, ih]
      tauto

theorem pairwise_insertDescBy {α : Type} (key : α → Int) (e : α) {l : List α}
    (h : l.Pairwise (fun a b => key b ≤ key a)) :
    (insertDescBy key e l).Pairwise (fun a b => key b ≤ key a) := by
  induction l with
  | nil => simp [insertDescBy]
  | cons x xs ih =>
    rw [List.pairwise_cons] at h
    simp only [insertDescBy]
    by_cases hx : key x ≤ key e
    · rw [if_pos hx, List.pairwise_cons]
      constructor
      · intro b hb
        rcases List.mem_cons.mp hb with hb | hb
        · rw [hb]; exact hx
        · exact le_trans (h.1 b hb) hx
      · exact List.pairwise_cons.mpr h
    · rw [if_neg hx, List.pairwise_cons]
      constructor
      · intro b hb
        rcases (mem_insertDescBy key e b xs).mp hb with hb | hb
        · rw [hb]; exact le_of_lt (lt_of_not_le hx)
        · exact h.1 b hb
      · exact ih h.2

theorem pairwise_sortDescBy {α : Type} (key : α → Int) (l : List α) :
    (sortDescBy key l).Pairwise (fun a b => key b ≤ key a) := by
  induction l with
  | nil => simp [sortDescBy]
  | cons x xs ih => exact pairwise_insertDescBy key x ih

theorem mem_sortDescBy {α : Type} (key : α → Int) (l : List α) (a : α) :
    a ∈ sortDescBy key l ↔ a ∈ l := by
  induction l with
  | nil => simp [sortDescBy]
  | cons x xs ih =>
    show a ∈ insertDescBy key x (sortDescBy key xs) ↔ _
    rw [mem_insertDescBy]
    simp only [List.mem_cons, ih]

theorem series_results_ok_eq {st : Store} {uid sid : Nat} {u : User} {s : Series}
    (hu : lookupUser st uid = some u) (hs : lookupSeries st sid = some s) :
    series_results uid sid st = Except.ok
      ⟨sid, (teamTotals st (roundIds st sid)).head?,
        (playerTotals st (roundIds st sid)).head?,
        teamTotals st (roundIds st sid)⟩ := by
  unfold series_results get_actor
  rw [hu]
  dsimp only
  rw [hs]

theorem series_results_ok_inv {st : Store} {uid sid : Nat} {resp : StandingsResp}
    (h : series_results uid sid st = Except.ok resp) :
    resp = ⟨sid, (teamTotals st (roundIds st sid)).head?,
      (playerTotals st (roundIds st sid)).head?,
      teamTotals st (roundIds st sid)⟩ := by
  unfold series_results get_actor at h
  cases hu : lookupUser st uid with
  | none => rw [hu] at h; cases h
  | some u =>
    rw [hu] at h
    dsimp only at h
    cases hs : lookupSeries st sid with
    | none => rw [hs] at h; cases h
    | some s =>
      rw [hs] at h
      dsimp only at h
      cases h
      rfl

/-- Membership in the team table exposes the underlying team row and the
matching team-point fact. -/
theorem mem_teamTotals {st : Store} {rids : List Nat} {e : TeamEntry}
    (he : e ∈ teamTotals st rids) :
    ∃ t ∈ st.teams, (st.teamPoints.any (tpMatches rids t.id)) = true ∧
      e = ⟨t.id, t.name, teamTotal st rids t.id⟩ := by
  unfold teamTotals at he
  have h₁ : e ∈ teamRowsUnsorted st rids :=
    (mem_sortDescBy (fun x => x.points) (teamRowsUnsorted st rids) e).mp he
  unfold teamRowsUnsorted at h₁
  rcases List.mem_map.mp h₁ with ⟨t, ht, hte⟩
  rcases List.mem_filter.mp ht with ⟨htl, hpred⟩
  exact ⟨t, htl, hpred, hte.symm⟩

/-- Membership in the player ranking exposes the underlying user row and
the matching performance fact. -/
theorem mem_playerTotals {st : Store} {rids : List Nat} {e : PlayerEntry}
    (he : e ∈ playerTotals st rids) :
    ∃ u ∈ st.users, (st.playerPerformances.any (perfMatches rids u.id)) = true ∧
      e = ⟨u.id, u.name, playerTotal st rids u.id⟩ := by
  unfold playerTotals at he
  have h₁ : e ∈ playerRowsUnsorted st rids :=
    (mem_sortDescBy (fun x => x.points) (playerRowsUnsorted st rids) e).mp he
  unfold playerRowsUnsorted at h₁
  rcases List.mem_map.mp h₁ with ⟨u, hu, hue⟩
  rcases List.mem_filter.mp hu with ⟨hul, hpred⟩
  exact ⟨u, hul, hpred, hue.symm⟩

/-- C2: for an existing series the standings operation returns a team
table of per-team sums of `TeamPoint.points` over the series' rounds,
ordered by descending sum, with the winner equal to the top entry; an
empty table and null winner when no team-point row falls in those rounds;
and `NotFound` (404) when the series does not exist. -/
theorem series_results_standings (st : Store) (uid sid : Nat) (u : User)
    (hu : lookupUser st uid = some u) :
    (lookupSeries st sid = none → series_results uid sid st = Except.error Err.notFound) ∧
    (∀ resp, series_results uid sid st = Except.ok resp →
      resp.team_table.Pairwise (fun a b => b.points ≤ a.points) ∧
      resp.winner_team = resp.team_table.head? ∧
      (∀ e ∈ resp.team_table, ∃ t ∈ st.teams, t.id = e.team_id ∧
        t.name = e.team_name ∧ e.points = teamTotal st (roundIds st sid) t.id) ∧
      (∀ t ∈ st.teams,
        (∃ tp ∈ st.teamPoints, tp.team_id = t.id ∧ tp.round_id ∈ roundIds st sid) →
        ⟨t.id, t.name, teamTotal st (roundIds st sid) t.id⟩ ∈ resp.team_table) ∧
      ((∀ tp ∈ st.teamPoints, tp.round_id ∉ roundIds st sid) →
        resp.winner_team = none ∧ resp.team_table = [])) := by
  constructor
  · intro hn
    unfold series_results get_actor
    rw [hu]
    dsimp only
    rw [hn]
  · intro resp h
    rw [series_results_ok_inv h]
    refine ⟨pairwise_sortDescBy (fun e : TeamEntry => e.points) _, rfl, ?_, ?_, ?_⟩
    · intro e he
      rcases mem_teamTotals he with ⟨t, htl, _, hte⟩
      exact ⟨t, htl, by rw [hte], by rw [hte], by rw [hte]⟩
    · intro t htl hrow
      show _ ∈ teamTotals st (roundIds st sid)
      unfold teamTotals
      rw [mem_sortDescBy]
      unfold teamRowsUnsorted
      apply List.mem_map.mpr
      refine ⟨t, List.mem_filter.mpr ⟨htl, ?_⟩, rfl⟩
      rcases hrow with ⟨tp, htp, h₁, h₂⟩
      apply List.any_eq_true.mpr
      refine ⟨tp, htp, ?_⟩
      simp [tpMatches, h₁]
      simpa using h₂
    · intro hempty
      have hfilter : st.teams.filter
          (fun t => st.teamPoints.any (tpMatches (roundIds st sid) t.id)) = [] := by
        rw [List.filter_eq_nil_iff]
        intro t ht hany
        rcases List.any_eq_true.mp hany with ⟨tp, htp, hm⟩
        have hmem : tp.round_id ∈ roundIds st sid := by
          have h₂ : (List.contains (roundIds st sid) tp.round_id) = true :=
            ((Bool.and_eq_true _ _).mp hm).2
          simpa using h₂
        exact hempty tp htp hmem
      have hrows : teamTotals st (roundIds st sid) = [] := by
        unfold teamTotals teamRowsUnsorted
        rw [hfilter]
        rfl
      simp [hrows]

/-- Example store for C2: one series with two rounds; team X totals 15,
team Y totals 20 across the rounds. -/
def standingsExampleStore : Store :=
  ⟨[⟨1, "Scorer", "scorer"⟩, ⟨2, "CapX", "captain"⟩, ⟨3, "CapY", "captain"⟩],
    [⟨1, "Cup", 0, 10⟩],
    [⟨10, "X", 2⟩, ⟨11, "Y", 3⟩],
    [],
    [⟨1, 1, "R1"⟩, ⟨2, 1, "R2"⟩],
    [⟨1, 1, 10, 10⟩, ⟨2, 1, 11, 12⟩, ⟨3, 2, 10, 5⟩, ⟨4, 2, 11, 8⟩],
    []⟩

/-- Witness for C2 at the example store: standings succeed with the table
[Y:20, X:15], winner Y, and all the stated ordering properties; a missing
series id yields `NotFound`. -/
theorem series_results_standings_witness :
    (series_results 1 1 standingsExampleStore = Except.ok
      ⟨1, some ⟨11, "Y", 20⟩, none, [⟨11, "Y", 20⟩, ⟨10, "X", 15⟩]⟩) ∧
    ((StandingsResp.mk 1 (some ⟨11, "Y", 20⟩) none
        [⟨11, "Y", 20⟩, ⟨10, "X", 15⟩]).team_table.Pairwise
      (fun a b => b.points ≤ a.points)) ∧
    series_results 1 5 standingsExampleStore = Except.error Err.notFound :=
  ⟨rfl,
    ((series_results_standings standingsExampleStore 1 1 ⟨1, "Scorer", "scorer"⟩
      rfl).2 ⟨1, some ⟨11, "Y", 20⟩, none, [⟨11, "Y", 20⟩, ⟨10, "X", 15⟩]⟩ rfl).1,
    (series_results_standings standingsExampleStore 1 5 ⟨1, "Scorer", "scorer"⟩
      rfl).1 rfl⟩

/-- C10: every team-table entry corresponds to a team owning at least one
`TeamPoint` row in the series' rounds; a team with no such row never
appears (rather than appearing with 0 points); and the man of the series,
when present, has at least one `PlayerPerformance` row in those rounds. -/
theorem standings_only_teams_with_rows (st : Store) (uid sid : Nat) (resp : StandingsResp)
    (h : series_results uid sid st = Except.ok resp) :
    (∀ e ∈ resp.team_table, ∃ tp ∈ st.teamPoints,
        tp.team_id = e.team_id ∧ tp.round_id ∈ roundIds st sid) ∧
    (∀ t ∈ st.teams,
      (∀ tp ∈ st.teamPoints, ¬(tp.team_id = t.id ∧ tp.round_id ∈ roundIds st sid)) →
      ∀ e ∈ resp.team_table, e.team_id ≠ t.id) ∧
    (∀ m, resp.man_of_the_series = some m → ∃ pf ∈ st.playerPerformances,
        pf.player_id = m.player_id ∧ pf.round_id ∈ roundIds st sid) := by
  rw [series_results_ok_inv h]
  refine ⟨?_, ?_, ?_⟩
  · intro e he
    rcases mem_teamTotals he with ⟨t, _, hany, hte⟩
    rcases List.any_eq_true.mp hany with ⟨tp, htp, hm⟩
    simp only [tpMatches, Bool.and_eq_true, beq_iff_eq] at hm
    refine ⟨tp, htp, ?_, by simpa using hm.2⟩
    rw [hte]
    exact hm.1
  · intro t _ hno e he hid
    rcases mem_teamTotals he with ⟨t₂, _, hany, hte⟩
    rcases List.any_eq_true.mp hany with ⟨tp, htp, hm⟩
    simp only [tpMatches, Bool.and_eq_true, beq_iff_eq] at hm
    apply hno tp htp
    constructor
    · rw [hm.1]
      have : e.team_id = t₂.id := by rw [hte]
      rw [← this, hid]
    · simpa using hm.2
  · intro m hm
    have hmem : m ∈ playerTotals st (roundIds st sid) := by
      cases hl : playerTotals st (roundIds st sid) with
      | nil => rw [hl] at hm; cases hm
      | cons x xs =>
        rw [hl] at hm
        cases hm
        exact List.mem_cons_self _ _
    rcases mem_playerTotals hmem with ⟨u, _, hany, hue⟩
    rcases List.any_eq_true.mp hany with ⟨pf, hpf, hpm⟩
    simp only [perfMatches, Bool.and_eq_true, beq_iff_eq] at hpm
    refine ⟨pf, hpf, ?_, by simpa using hpm.2⟩
    rw [hue]
    exact hpm.1

/-- Witness for C10 at the example store: each table entry has a backing
fact row and the absent man of the series is vacuously covered. -/
theorem standings_only_teams_with_rows_witness :
    (∀ e ∈ (StandingsResp.mk 1 (some ⟨11, "Y", 20⟩) none
        [⟨11, "Y", 20⟩, ⟨10, "X", 15⟩]).team_table,
      ∃ tp ∈ standingsExampleStore.teamPoints,
        tp.team_id = e.team_id ∧ tp.round_id ∈ roundIds standingsExampleStore 1) ∧
    (∀ t ∈ standingsExampleStore.teams,
      (∀ tp ∈ standingsExampleStore.teamPoints,
        ¬(tp.team_id = t.id ∧ tp.round_id ∈ roundIds standingsExampleStore 1)) →
      ∀ e ∈ (StandingsResp.mk 1 (some ⟨11, "Y", 20⟩) none
        [⟨11, "Y", 20⟩, ⟨10, "X", 15⟩]).team_table, e.team_id ≠ t.id) ∧
    (∀ m, (StandingsResp.mk 1 (some ⟨11, "Y", 20⟩) none
        [⟨11, "Y", 20⟩, ⟨10, "X", 15⟩]).man_of_the_series = some m →
      ∃ pf ∈ standingsExampleStore.playerPerformances,
        pf.player_id = m.player_id ∧ pf.round_id ∈ roundIds standingsExampleStore 1) :=
  standings_only_teams_with_rows standingsExampleStore 1 1
    ⟨1, some ⟨11, "Y", 20⟩, none, [⟨11, "Y", 20⟩, ⟨10, "X", 15⟩]⟩ rfl

theorem filter_any_of_imp {α : Type} (l : List α) (keep q : α → Bool)
    (h : ∀ a, q a = true → keep a = true) :
    (l.filter keep).any q = l.any q := by
  induction l with
  | nil => rfl
  | cons x xs ih =>
    by_cases hk : keep x = true
    · rw [List.filter_cons_of_pos hk, List.any_cons, List.any_cons, ih]
    · have hkf : keep x = false := by simpa using hk
      rw [List.filter_cons_of_neg (by simpa using hk)]
      have hq : q x = false := by
        cases hqx : q x
        · rfl
        · exact absurd (h x hqx) (by simp [hkf])
      rw [List.any_cons, hq, ih]
      simp

theorem filter_filter_of_imp {α : Type} (l : List α) (keep q : α → Bool)
    (h : ∀ a, q a = true → keep a = true) :
    (l.filter keep).filter q = l.filter q := by
  induction l with
  | nil => rfl
  | cons x xs ih =>
    by_cases hk : keep x = true
    · rw [List.filter_cons_of_pos hk]
      by_cases hq : q x = true
      · rw [List.filter_cons_of_pos hq, List.filter_cons_of_pos hq, ih]
      · rw [List.filter_cons_of_neg (by simpa using hq),
          List.filter_cons_of_neg (by simpa using hq), ih]
    · have hq : q x = false := by
        cases hqx : q x
        · rfl
        · exact absurd (h x hqx) hk
      rw [List.filter_cons_of_neg (by simpa using hk),
        List.filter_cons_of_neg (by simp [hq]), ih]

/-- A team-point row matching an existing team and a round of the series
is never orphaned. -/
theorem tpMatches_imp_keep {st : Store} {sid : Nat} {t : Team} (ht : t ∈ st.teams) :
    ∀ tp, tpMatches (roundIds st sid) t.id tp = true → tpKeep st tp = true := by
  intro tp hm
  simp only [tpMatches, Bool.and_eq_true, beq_iff_eq] at hm
  rcases hm with ⟨h₁, h₂⟩
  have h₃ : tp.round_id ∈ roundIds st sid := by simpa using h₂
  unfold roundIds at h₃
  rcases List.mem_map.mp h₃ with ⟨r, hr, hrid⟩
  unfold tpKeep
  rw [Bool.and_eq_true]
  constructor
  · exact List.any_eq_true.mpr ⟨t, ht, by simp [h₁]⟩
  · exact List.any_eq_true.mpr ⟨r, (List.mem_filter.mp hr).1, by simp [hrid]⟩

/-- A performance row matching an existing user and a round of the series
is never orphaned. -/
theorem perfMatches_imp_keep {st : Store} {sid : Nat} {u : User} (hu : u ∈ st.users) :
    ∀ p, perfMatches (roundIds st sid) u.id p = true → perfKeep st p = true := by
  intro p hm
  simp only [perfMatches, Bool.and_eq_true, beq_iff_eq] at hm
  rcases hm with ⟨h₁, h₂⟩
  have h₃ : p.round_id ∈ roundIds st sid := by simpa using h₂
  unfold roundIds at h₃
  rcases List.mem_map.mp h₃ with ⟨r, hr, hrid⟩
  unfold perfKeep
  rw [Bool.and_eq_true]
  constructor
  · exact List.any_eq_true.mpr ⟨u, hu, by simp [h₁]⟩
  · exact List.any_eq_true.mpr ⟨r, (List.mem_filter.mp hr).1, by simp [hrid]⟩

theorem teamRowsUnsorted_prune (st : Store) (sid : Nat) :
    teamRowsUnsorted (pruneOrphans st) (roundIds st sid) =
      teamRowsUnsorted st (roundIds st sid) := by
  unfold teamRowsUnsorted
  have e₁ : (pruneOrphans st).teams = st.teams := rfl
  have e₂ : (pruneOrphans st).teamPoints = st.teamPoints.filter (tpKeep st) := rfl
  rw [e₁, e₂]
  have hfil : st.teams.filter
      (fun t => (st.teamPoints.filter (tpKeep st)).any (tpMatches (roundIds st sid) t.id)) =
      st.teams.filter (fun t => st.teamPoints.any (tpMatches (roundIds st sid) t.id)) := by
    apply List.filter_congr
    intro t ht
    exact filter_any_of_imp st.teamPoints (tpKeep st) _ (tpMatches_imp_keep ht)
  rw [hfil]
  apply List.map_congr_left
  intro t ht
  have ht₂ : t ∈ st.teams := (List.mem_filter.mp ht).1
  have htot : teamTotal (pruneOrphans st) (roundIds st sid) t.id =
      teamTotal st (roundIds st sid) t.id := by
    unfold teamTotal
    rw [e₂, filter_filter_of_imp st.teamPoints (tpKeep st) _ (tpMatches_imp_keep ht₂)]
  rw [htot]

theorem playerRowsUnsorted_prune (st : Store) (sid : Nat) :
    playerRowsUnsorted (pruneOrphans st) (roundIds st sid) =
      playerRowsUnsorted st (roundIds st sid) := by
  unfold playerRowsUnsorted
  have e₁ : (pruneOrphans st).users = st.users := rfl
  have e₂ : (pruneOrphans st).playerPerformances =
      st.playerPerformances.filter (perfKeep st) := rfl
  rw [e₁, e₂]
  have hfil : st.users.filter
      (fun u => (st.playerPerformances.filter (perfKeep st)).any
        (perfMatches (roundIds st sid) u.id)) =
      st.users.filter (fun u => st.playerPerformances.any
        (perfMatches (roundIds st sid) u.id)) := by
    apply List.filter_congr
    intro u hu
    exact filter_any_of_imp st.playerPerformances (perfKeep st) _ (perfMatches_imp_keep hu)
  rw [hfil]
  apply List.map_congr_left
  intro u hu
  have hu₂ : u ∈ st.users := (List.mem_filter.mp hu).1
  have htot : playerTotal (pruneOrphans st) (roundIds st sid) u.id =
      playerTotal st (roundIds st sid) u.id := by
    unfold playerTotal
    rw [e₂, filter_filter_of_imp st.playerPerformances (perfKeep st) _
      (perfMatches_imp_keep hu₂)]
  rw [htot]

/-- Store with a single orphaned performance row: round 99 and player 77
do not exist. -/
def orphanStore : Store :=
  ⟨[⟨1, "S", "scorer"⟩], [], [], [], [], [], [⟨1, 99, 77, 5, 0⟩]⟩

/-- Counterexample to C7: querying man-of-the-match for round 99 selects
the orphaned row and then crashes on the missing player (HTTP 500), a
failure other than `NotFound`; with the orphaned row removed the same
query returns `NotFound`. -/
theorem man_of_match_orphan_crashes :
    man_of_match 1 99 orphanStore = Except.error Err.internalError ∧
    Err.internalError ≠ Err.notFound ∧
    man_of_match 1 99 (pruneOrphans orphanStore) = Except.error Err.notFound :=
  ⟨rfl, by decide, rfl⟩

/-- C7 (amended): the standings operation silently ignores orphaned fact
rows — its result on any store equals its result after deleting every
orphaned row — and, for an authenticated actor, it fails only with its
specified `NotFound` case.  (Man-of-the-match does not share this
property: an orphaned row can win the round, and a dangling `player_id`
on the winning row makes the operation fail with an internal error.) -/
theorem series_results_ignores_orphans (st : Store) (uid sid : Nat) (u : User)
    (hu : lookupUser st uid = some u) :
    series_results uid sid (pruneOrphans st) = series_results uid sid st ∧
    (∀ e, series_results uid sid st = Except.error e → e = Err.notFound) := by
  constructor
  · have hteams : teamTotals (pruneOrphans st) (roundIds (pruneOrphans st) sid) =
        teamTotals st (roundIds st sid) := by
      have h₀ : roundIds (pruneOrphans st) sid = roundIds st sid := rfl
      rw [h₀]
      unfold teamTotals
      rw [teamRowsUnsorted_prune]
    have hplayers : playerTotals (pruneOrphans st) (roundIds (pruneOrphans st) sid) =
        playerTotals st (roundIds st sid) := by
      have h₀ : roundIds (pruneOrphans st) sid = roundIds st sid := rfl
      rw [h₀]
      unfold playerTotals
      rw [playerRowsUnsorted_prune]
    unfold series_results
    have hact : get_actor (pruneOrphans st) uid = get_actor st uid := rfl
    rw [hact]
    cases get_actor st uid with
    | error e => rfl
    | ok actor =>
      dsimp only
      have hls : lookupSeries (pruneOrphans st) sid = lookupSeries st sid := rfl
      rw [hls]
      cases lookupSeries st sid with
      | none => rfl
      | some s =>
        dsimp only
        rw [hteams, hplayers]
  · intro e he
    unfold series_results get_actor at he
    rw [hu] at he
    dsimp only at he
    cases hs : lookupSeries st sid with
    | none =>
      rw [hs] at he
      cases he
      rfl
    | some s => rw [hs] at he; cases he

/-- Store with an existing series, one existing team, and only orphaned
fact rows (round 55 does not exist, player 9 does not exist). -/
def orphanSeriesStore : Store :=
  ⟨[⟨1, "S", "scorer"⟩], [⟨1, "Cup", 0, 10⟩], [⟨10, "X", 1⟩], [], [],
    [⟨1, 55, 10, 7⟩], [⟨1, 55, 9, 3, 0⟩]⟩

/-- Witness for the amended C7: a store whose only fact rows are orphaned
gives the same standings before and after pruning, and standings errors
are `NotFound` only. -/
theorem series_results_ignores_orphans_witness :
    series_results 1 1 (pruneOrphans orphanSeriesStore) =
      series_results 1 1 orphanSeriesStore ∧
    (∀ e, series_results 1 1 orphanSeriesStore = Except.error e → e = Err.notFound) :=
  series_results_ignores_orphans orphanSeriesStore 1 1 ⟨1, "S", "scorer"⟩ rfl

end SeriesPoints
